import Mathlib

/-!
Verification of the GBFS explorer's discovery, classification and
aggregation pipeline, shallowly embedded from the TypeScript/JavaScript
sources:

* `src/utils/gbfsClassification.ts` — `classifyOperatorType`
* `src/app/analytics/index.ts` — `discoverFeeds`,
  `countFreeFloatingVehicles`, `parseStationStatusFeed`
* `api/v2/gbfs-feeds.js` — `fetchSingleFeed`, the batch handler and its
  URL-keyed result cache
* `api/feeds.js` — `isTokenExpired`, `getAccessToken`,
  `fetchAllGbfsFeeds` (catalog pagination)

JavaScript numbers are modelled as `Int`, absent/`undefined` fields as
`Option`, and network effects as explicit outcome parameters.
-/

namespace GbfsExplorer

/-- Substring helper: does the list `hay` contain `n` as a contiguous
sublist?  Models JavaScript `String.prototype.includes` below. -/
def hasSubAux (n : List Char) : List Char → Bool
  | [] => n.isEmpty
  | c :: cs => n.isPrefixOf (c :: cs) || hasSubAux n cs

/-- JavaScript `hay.includes(needle)`. -/
def strIncludes (hay needle : String) : Bool :=
  hasSubAux needle.toList hay.toList

/-! ## Operator classification (`src/utils/gbfsClassification.ts`) -/

/-- `OperatorType` from `gbfsClassification.ts`. -/
inductive OperatorType where
  | station_based : OperatorType
  | free_floating : OperatorType
  | unknown : OperatorType
deriving DecidableEq, Repr

/-- A `Record<string, string>` mapping feed names to URLs; the keys are
the first components. -/
abbrev FeedMap := List (String × String)

/-- `Object.keys(feedsFromDiscovery)`. -/
def feedKeys (m : FeedMap) : List String := m.map (fun p => p.1)

/-- `STATION_FEED_NAMES` from `gbfsClassification.ts`. -/
def STATION_FEED_NAMES : List String := ["station_information", "station_status"]

/-- `VEHICLE_FEED_NAMES` from `gbfsClassification.ts`. -/
def VEHICLE_FEED_NAMES : List String := ["vehicle_status", "free_bike_status"]

/-- One entry of a `vehicle_types.json` payload; `form_factor` is absent
(`none`) or a string. -/
structure VehicleType where
  form_factor : Option String
deriving DecidableEq, Repr

/-- The `vehicleTypesData` argument: its `vehicle_types` field is `some`
exactly when the JS value is a (truthy) array. -/
structure VehicleTypesData where
  vehicle_types : Option (List VehicleType)
deriving DecidableEq, Repr

/-- `vt.form_factor && vt.form_factor.includes('scooter')` for one entry
(an empty string is falsy in JS). -/
def vtIsScooter (vt : VehicleType) : Bool :=
  match vt.form_factor with
  | some ff => (ff ≠ "") && strIncludes ff "scooter"
  | none => false

/-- The scooter-override test of `classifyOperatorType`:
`vehicleTypesData && vehicleTypesData.vehicle_types` is an array and
some entry's form factor includes `scooter`. -/
def scooterOverride (evidence : Option VehicleTypesData) : Bool :=
  match evidence with
  | some vtd =>
    match vtd.vehicle_types with
    | some vts => vts.any vtIsScooter
    | none => false
  | none => false

/-- `classifyOperatorType` from `gbfsClassification.ts`: empty-feed guard
first, then the scooter override, then station evidence
(`station_information` and `station_status` both present), then vehicle
evidence (`vehicle_status` or `free_bike_status`), else `unknown`. -/
def classifyOperatorType (feeds : FeedMap) (evidence : Option VehicleTypesData) :
    OperatorType :=
  if feeds.isEmpty then .unknown
  else if scooterOverride evidence then .free_floating
  else if STATION_FEED_NAMES.all (fun n => (feedKeys feeds).contains n) then
    .station_based
  else if VEHICLE_FEED_NAMES.any (fun n => (feedKeys feeds).contains n) then
    .free_floating
  else .unknown

/-! ## Status feed normalizers (`src/app/analytics/index.ts`) -/

/-- One vehicle of a `vehicle_status`/`free_bike_status` payload.  The
flags are `some b` when the JS field is the boolean `b` and `none` when
it is absent (the code's `=== false` test is only true for the literal
boolean `false`). -/
structure Vehicle where
  is_disabled : Option Bool
  is_reserved : Option Bool
deriving DecidableEq, Repr

/-- The `data` part of a free-floating status document: `vehicles` /
`bikes` are `some` exactly when the corresponding JS field is an array. -/
structure FreeFloatingData where
  vehicles : Option (List Vehicle)
  bikes : Option (List Vehicle)
deriving DecidableEq, Repr

/-- The counts returned by `countFreeFloatingVehicles`. -/
structure VehicleCounts where
  total : Nat
  available : Nat
deriving DecidableEq, Repr

/-- `v.is_disabled === false && v.is_reserved === false`. -/
def vehicleIsAvailable (v : Vehicle) : Bool :=
  v.is_disabled == some false && v.is_reserved == some false

/-- `countFreeFloatingVehicles` from `analytics/index.ts`: `none` input
models a missing/falsy `parsedFeed.data`; prefers `data.vehicles`, falls
back to `data.bikes`, else `null`; total is the array length and
available counts the vehicles passing `vehicleIsAvailable`. -/
def countFreeFloatingVehicles (d : Option FreeFloatingData) :
    Option VehicleCounts :=
  match d with
  | none => none
  | some dd =>
    match dd.vehicles with
    | some vs => some ⟨vs.length, (vs.filter vehicleIsAvailable).length⟩
    | none =>
      match dd.bikes with
      | some bs => some ⟨bs.length, (bs.filter vehicleIsAvailable).length⟩
      | none => none

/-- Spec-side restatement of §4.6 (free-floating): take the `vehicles`
array if present, else the legacy `bikes` array; total = array length;
available = number of entries whose `is_disabled` and `is_reserved`
flags are both explicitly `false`; `null` when neither array exists. -/
def countFreeFloatingPerSpec (d : Option FreeFloatingData) :
    Option VehicleCounts :=
  d.bind (fun dd =>
    (dd.vehicles.orElse (fun _ => dd.bikes)).map (fun arr =>
      ⟨arr.length,
       arr.countP (fun v => v.is_disabled = some false ∧ v.is_reserved = some false)⟩))

/-- One entry of a station's `vehicle_types_available` list; `count` is
`some` when the JS field is a number (the code reads `vt.count || 0`). -/
structure VehicleTypeCount where
  count : Option Int
deriving DecidableEq, Repr

/-- One station of a `station_status` payload.  Numeric fields are
`some` exactly when the JS field passes `typeof x === 'number'`;
`station_id` is `none` when absent (JS `undefined`). -/
structure Station where
  station_id : Option String
  vehicle_types_available : Option (List VehicleTypeCount)
  num_bikes_available : Option Int
  num_vehicles_available : Option Int
  num_ebikes_available : Option Int
  num_bikes_disabled : Option Int
  num_vehicles_disabled : Option Int
  num_docks_available : Option Int
deriving DecidableEq, Repr

/-- The `data` part of a station-status document. -/
structure StationStatusData where
  stations : Option (List Station)
deriving DecidableEq, Repr

/-- The summary returned by `parseStationStatusFeed` (whose `error`
field is always `null` on success). -/
structure StationSummary where
  bikesAvailable : Int
  bikesTotal : Int
  docksAvailable : Int
  stationCount : Nat
  error : Option String
deriving DecidableEq, Repr

/-- Per-station available count: prefer an itemized
`vehicle_types_available` sum, else `num_bikes_available` (or, failing
that, `num_vehicles_available`) plus `num_ebikes_available`. -/
def stationBikesAvailable (s : Station) : Int :=
  match s.vehicle_types_available with
  | some vts => vts.foldl (fun acc vt => acc + vt.count.getD 0) 0
  | none =>
    (match s.num_bikes_available with
     | some n => n
     | none => s.num_vehicles_available.getD 0) +
      s.num_ebikes_available.getD 0

/-- Per-station total: available plus any disabled counters. -/
def stationBikesTotal (s : Station) : Int :=
  stationBikesAvailable s + s.num_bikes_disabled.getD 0 +
    s.num_vehicles_disabled.getD 0

/-- `parseStationStatusFeed` from `analytics/index.ts`: `none` input
models a missing/falsy `parsedFeed.data`, and a missing/non-array
`stations` also yields `null`.  Otherwise it sums availability, totals
and docks over the stations and counts the distinct `station_id` values
collected in a `Set` (absent ids all collapse to the one value
`undefined`, modelled as `none`). -/
def parseStationStatusFeed (d : Option StationStatusData) :
    Option StationSummary :=
  match d with
  | none => none
  | some dd =>
    match dd.stations with
    | none => none
    | some sts =>
      some ⟨(sts.map stationBikesAvailable).foldl (· + ·) 0,
            (sts.map stationBikesTotal).foldl (· + ·) 0,
            (sts.map (fun s => s.num_docks_available.getD 0)).foldl (· + ·) 0,
            ((sts.map (fun s => s.station_id)).dedup).length,
            none⟩

/-! ## JavaScript value model and the discovery parser -/

/-- A JSON/JavaScript value as the discovery parser receives it
(`JSON.parse` output: no `undefined` at top level; `undefined` only
arises from property access and is modelled as `Option.none`). -/
inductive JsValue where
  | null : JsValue
  | bool : Bool → JsValue
  | num : Int → JsValue
  | str : String → JsValue
  | arr : List JsValue → JsValue
  | obj : List (String × JsValue) → JsValue
deriving Repr

/-- JS truthiness (numbers modelled as integers). -/
def truthy : JsValue → Bool
  | .null => false
  | .bool b => b
  | .num n => n ≠ 0
  | .str s => s ≠ ""
  | .arr _ => true
  | .obj _ => true

/-- Truthiness of a property-access result (`undefined` is falsy). -/
def truthyOpt : Option JsValue → Bool
  | some v => truthy v
  | none => false

/-- First-match lookup among an object's fields (JS object keys are
unique). -/
def lookupField : List (String × JsValue) → String → Option JsValue
  | [], _ => none
  | (k, v) :: fs, key => if k = key then some v else lookupField fs key

/-- Property access `o[k]` on a non-null value; `none` models
`undefined`.  Arrays and strings expose numeric indices (the index
strings produced by `Object.keys`). -/
def getProp : JsValue → String → Option JsValue
  | .obj fs, k => lookupField fs k
  | .arr xs, k => k.toNat?.bind (fun i => xs.get? i)
  | .str s, k =>
    k.toNat?.bind (fun i => (s.toList.get? i).map (fun c => JsValue.str (String.mk [c])))
  | _, _ => none

/-- `Object.keys`. -/
def jsKeys : JsValue → List String
  | .obj fs => fs.map (fun p => p.1)
  | .arr xs => (List.range xs.length).map (fun i => toString i)
  | .str s => (List.range s.length).map (fun i => toString i)
  | _ => []

/-- `typeof v === 'object'` (true for objects, arrays and `null`). -/
def isObjectType : JsValue → Bool
  | .obj _ => true
  | .arr _ => true
  | .null => true
  | _ => false

/-- Helper for `[...new Set(l)]`. -/
def dedupFirstAux (seen : List String) : List String → List String
  | [] => []
  | x :: xs =>
    if seen.contains x then dedupFirstAux seen xs
    else x :: dedupFirstAux (x :: seen) xs

/-- `[...new Set(l)]`: first-occurrence deduplication. -/
def dedupFirst (l : List String) : List String := dedupFirstAux [] l

/-- A discovery feed entry is accepted iff it is truthy and both its
`name` and `url` properties are strings
(`feed && typeof feed.name === 'string' && typeof feed.url === 'string'`). -/
def acceptFeedEntry (feed : JsValue) : Option (String × String) :=
  if truthy feed then
    match getProp feed "name", getProp feed "url" with
    | some (.str n), some (.str u) => some (n, u)
    | _, _ => none
  else none

/-- JS record assignment `m[k] = v`: overwrite an existing key in place,
else append in insertion order. -/
def recordSet (m : List (String × String)) (k v : String) :
    List (String × String) :=
  if (m.map (fun p => p.1)).contains k then
    m.map (fun p => if p.1 = k then (k, v) else p)
  else m ++ [(k, v)]

/-- The parser's `feeds.forEach(...)`: fold accepted entries into the
record. -/
def addFeeds (m : List (String × String)) : List JsValue → List (String × String)
  | [] => m
  | f :: fs =>
    addFeeds
      (match acceptFeedEntry f with
       | some (n, u) => recordSet m n u
       | none => m) fs

/-- The multi-language loop of `discoverFeeds`: walk the candidate
language keys; a language block counts if it is a truthy object with a
`feeds` array; collect its accepted entries and take its truthy `name`;
return early (third component `true`) as soon as the map is non-empty,
which skips the root-level fallback. -/
def collectLangFeeds (content : JsValue) :
    List String → List (String × String) → JsValue →
    List (String × String) × JsValue × Bool
  | [], m, name => (m, name, false)
  | lang :: rest, m, name =>
    match getProp content lang with
    | some langData =>
      if truthy langData && isObjectType langData then
        match getProp langData "feeds" with
        | some (.arr feedList) =>
          let m2 := addFeeds m feedList
          let name2 :=
            match getProp langData "name" with
            | some nv => if truthy nv then nv else name
            | none => name
          if m2.length > 0 then (m2, name2, true)
          else collectLangFeeds content rest m2 name2
        | _ => collectLangFeeds content rest m name
      else collectLangFeeds content rest m name
    | none => collectLangFeeds content rest m name

/-- Core of `discoverFeeds` for a non-null document: unwrap one `data`
envelope when the document has a truthy `data` field and no truthy
`feeds` field, run the language loop over `en`, `nb` and the document's
own keys, then fall back to a root-level `feeds` array. -/
def discoverFeedsCore (raw : JsValue) (initialOperatorName : String) :
    List (String × String) × JsValue :=
  let dataF := getProp raw "data"
  let content :=
    if truthyOpt dataF && !truthyOpt (getProp raw "feeds") then dataF.getD raw
    else raw
  let langs := dedupFirst (["en", "nb"] ++ jsKeys content)
  let r := collectLangFeeds content langs [] (JsValue.str initialOperatorName)
  if r.2.2 then (r.1, r.2.1)
  else
    match getProp content "feeds" with
    | some (.arr feedList) =>
      let m2 := addFeeds r.1 feedList
      let name2 :=
        match getProp content "name" with
        | some nv => if truthy nv then nv else r.2.1
        | none => r.2.1
      (m2, name2)
    | _ => (r.1, r.2.1)

/-- `discoverFeeds` from `analytics/index.ts`.  `Except.error` models
the `TypeError` that the unguarded property access `rawGbfsJson.data`
raises on the JSON document `null`; every other document runs the total
core. -/
def discoverFeeds (raw : JsValue) (initialOperatorName : String) :
    Except Unit (List (String × String) × JsValue) :=
  match raw with
  | .null => .error ()
  | _ => .ok (discoverFeedsCore raw initialOperatorName)

/-! ## Concurrent feed fetch and cache (`api/v2/gbfs-feeds.js`) -/

/-- One request item `{name, url}`. -/
structure Feed where
  name : String
  url : String
deriving DecidableEq, Repr

/-- One per-item result `{feed_name, data, error}`. -/
structure FeedResult where
  feed_name : String
  data : Option JsValue
  error : Option String
deriving Repr

/-- What the network does for one URL: a parsed JSON body, a non-success
HTTP status, expiry of the item's own 10 s time box (the abort fires and
`fetch` rejects with the given message), or another rejection. -/
inductive FetchOutcome where
  | ok : JsValue → FetchOutcome
  | badStatus : Nat → String → FetchOutcome
  | timeout : String → FetchOutcome
  | failed : String → FetchOutcome

/-- `error.message || 'Unknown error'`. -/
def errMessageOr (m : String) : String :=
  if m = "" then "Unknown error" else m

/-- `fetchSingleFeed` from `gbfs-feeds.js`: every outcome is converted
into a per-item result; nothing is thrown past the item. -/
def fetchSingleFeed (feed : Feed) (outcome : FetchOutcome) : FeedResult :=
  match outcome with
  | .ok body => ⟨feed.name, some body, none⟩
  | .badStatus s t => ⟨feed.name, none, some ("HTTP " ++ toString s ++ ": " ++ t)⟩
  | .timeout m => ⟨feed.name, none, some (errMessageOr m)⟩
  | .failed m => ⟨feed.name, none, some (errMessageOr m)⟩

/-- `Promise.all(feeds.map(fetchSingleFeed))`: order- and
length-preserving, each item determined by its own feed and outcome. -/
def fetchManyResults (feeds : List Feed) (net : String → FetchOutcome) :
    List FeedResult :=
  feeds.map (fun f => fetchSingleFeed f (net f.url))

/-- Insertion step for string sorting. -/
def insertSorted (s : String) : List String → List String
  | [] => [s]
  | x :: xs => if s ≤ x then s :: x :: xs else x :: insertSorted s xs

/-- JS `array.sort()` on strings (lexicographic insertion sort). -/
def sortStrings : List String → List String
  | [] => []
  | x :: xs => insertSorted x (sortStrings xs)

/-- `CACHE_TTL = 60 * 1000` ms. -/
def CACHE_TTL : Int := 60 * 1000

/-- The handler's cache key
`JSON.stringify(feeds.map(f => f.url).sort())`, modelled as the sorted
URL list itself (stringify is injective on string lists). -/
def cacheKey (feeds : List Feed) : List String :=
  sortStrings (feeds.map (fun f => f.url))

/-- The module-level `cache` Map: key → (results, timestamp). -/
structure CacheState where
  entries : List (List String × (List FeedResult × Int))

/-- `cache.get`. -/
def lookupEntries :
    List (List String × (List FeedResult × Int)) → List String →
    Option (List FeedResult × Int)
  | [], _ => none
  | (k, v) :: es, key => if k = key then some v else lookupEntries es key

/-- `cache.set`: replace an existing key or append. -/
def cacheInsert (st : CacheState) (k : List String)
    (v : List FeedResult × Int) : CacheState :=
  if (st.entries.map (fun e => e.1)).contains k then
    ⟨st.entries.map (fun e => if e.1 = k then (k, v) else e)⟩
  else ⟨st.entries ++ [(k, v)]⟩

/-- One POST to the v2 handler: serve the cached results when the key is
present and younger than `CACHE_TTL`, otherwise fetch all items and
store the fresh results under the key. -/
def handlerStep (st : CacheState) (feeds : List Feed) (now : Int)
    (net : String → FetchOutcome) : List FeedResult × CacheState :=
  match lookupEntries st.entries (cacheKey feeds) with
  | some (res, t) =>
    if now - t < CACHE_TTL then (res, st)
    else
      let fresh := fetchManyResults feeds net
      (fresh, cacheInsert st (cacheKey feeds) (fresh, now))
  | none =>
    let fresh := fetchManyResults feeds net
    (fresh, cacheInsert st (cacheKey feeds) (fresh, now))

/-! ## Catalog pagination (`api/feeds.js`, `fetchAllGbfsFeeds`) -/

/-- The fixed page size of `fetchAllGbfsFeeds`. -/
def PAGE_LIMIT : Nat := 1000

/-- The fetch loop of `fetchAllGbfsFeeds`: `pages i` is the record list
the upstream returns at offset `i * limit`; the result pairs the
concatenated records with the page indices actually requested.  Stop on
an empty page (contributing nothing) or on a short page (contributing
its records); otherwise continue at the next offset.  `fuel` bounds the
number of requests — the JS `while (true)` loop has no such bound, and
the theorems below hold for all sufficiently large fuel. -/
def fetchPagesAux (pages : Nat → List Nat) (limit : Nat) :
    Nat → Nat → List Nat × List Nat
  | 0, _ => ([], [])
  | fuel + 1, idx =>
    let p := pages idx
    if p.length = 0 then ([], [idx])
    else if p.length < limit then (p, [idx])
    else
      let r := fetchPagesAux pages limit fuel (idx + 1)
      (p ++ r.1, idx :: r.2)

/-- `fetchAllGbfsFeeds` with its request trace. -/
def fetchAllGbfsFeedsRun (pages : Nat → List Nat) (fuel : Nat) :
    List Nat × List Nat :=
  fetchPagesAux pages PAGE_LIMIT fuel 0

/-! ## Credential manager (`api/feeds.js`) -/

/-- The module-level `tokenManager`; the expiry is a millisecond epoch
instant. -/
structure TokenManager where
  accessToken : Option String
  tokenExpiresAt : Option Int
deriving DecidableEq, Repr

/-- `bufferTime = 5 * 60 * 1000` ms. -/
def bufferTime : Int := 5 * 60 * 1000

/-- `isTokenExpired`: a missing or empty (falsy) token or a missing
expiry is expired; otherwise expired iff `now ≥ expiry − buffer`. -/
def isTokenExpired (tm : TokenManager) (now : Int) : Bool :=
  match tm.accessToken, tm.tokenExpiresAt with
  | some tok, some exp =>
    if tok = "" then true else decide (exp - bufferTime ≤ now)
  | _, _ => true

/-- The body of a successful refresh exchange. -/
structure RefreshResponse where
  access_token : String
  expires_in : Option Int
deriving DecidableEq, Repr

/-- What a `getAccessToken` call produces: the returned token, the
manager state afterwards, and whether a refresh exchange was performed. -/
structure TokenResult where
  token : String
  manager : TokenManager
  didRefresh : Bool
deriving DecidableEq, Repr

/-- `refreshAccessToken` (success path): store the fresh token with
expiry `now + (expires_in || 3600) * 1000`. -/
def refreshAccessToken (now : Int) (resp : RefreshResponse) : TokenResult :=
  let expiresIn : Int :=
    match resp.expires_in with
    | some e => if e = 0 then 3600 else e
    | none => 3600
  ⟨resp.access_token,
   ⟨some resp.access_token, some (now + expiresIn * 1000)⟩,
   true⟩

/-- `getAccessToken`: refresh exactly when `isTokenExpired`, else hand
back the stored token unchanged. -/
def getAccessToken (tm : TokenManager) (now : Int) (resp : RefreshResponse) :
    TokenResult :=
  if isTokenExpired tm now then refreshAccessToken now resp
  else ⟨tm.accessToken.getD "", tm, false⟩

/-! ## Concrete test scenarios -/

/-- A network where the URL `u2` hangs past its time box and every other
URL answers with the JSON body `null`. -/
def demoNet : String → FetchOutcome :=
  fun url =>
    if url = "u2" then FetchOutcome.timeout "The operation was aborted"
    else FetchOutcome.ok JsValue.null

/-- An upstream catalog answering pages of sizes 1000, 1000, 400 — and,
were it ever asked, non-empty junk pages from offset 3000 on. -/
def demoPages : Nat → List Nat :=
  fun k =>
    if k = 0 then List.replicate 1000 0
    else if k = 1 then List.replicate 1000 1
    else if k = 2 then List.replicate 400 2
    else List.replicate 1000 9

end GbfsExplorer

/-- C1: a feed map carrying both station feeds, with no scooter evidence,
classifies as `station_based`, whatever vehicle feeds are also present. -/
theorem classify_prefers_stations (feeds : GbfsExplorer.FeedMap)
    (evidence : Option GbfsExplorer.VehicleTypesData)
    (h1 : (GbfsExplorer.feedKeys feeds).contains "station_information" = true)
    (h2 : (GbfsExplorer.feedKeys feeds).contains "station_status" = true)
    (hs : GbfsExplorer.scooterOverride evidence = false) :
    GbfsExplorer.classifyOperatorType feeds evidence =
      GbfsExplorer.OperatorType.station_based := by
  have hne : feeds.isEmpty = false := by
    cases feeds with
    | nil => simp [GbfsExplorer.feedKeys] at h1
    | cons a l => rfl
  have m1 : "station_information" ∈ GbfsExplorer.feedKeys feeds := by
    simpa using h1
  have m2 : "station_status" ∈ GbfsExplorer.feedKeys feeds := by
    simpa using h2
  simp [GbfsExplorer.classifyOperatorType, hne, hs,
    GbfsExplorer.STATION_FEED_NAMES, m1, m2]

/-- C1 witness: a hybrid feed map with both station feeds and a vehicle
feed, no evidence supplied, classifies as `station_based`. -/
theorem classify_prefers_stations_witness :
    GbfsExplorer.classifyOperatorType
      [("station_information", "si"), ("station_status", "ss"),
       ("free_bike_status", "fb")] none =
      GbfsExplorer.OperatorType.station_based :=
  classify_prefers_stations _ none (by decide) (by decide) (by decide)

/-- C2 counterexample: with the empty feed map and explicit scooter
evidence, `classifyOperatorType` returns `unknown`, not `free_floating`:
the empty-feed guard runs before the scooter override. -/
theorem classify_scooter_empty_counterexample :
    GbfsExplorer.classifyOperatorType []
        (some ⟨some [⟨some "scooter"⟩]⟩) = GbfsExplorer.OperatorType.unknown ∧
      GbfsExplorer.OperatorType.unknown ≠ GbfsExplorer.OperatorType.free_floating :=
  ⟨rfl, by decide⟩

/-- C2 (amended): for every NONEMPTY feed map, scooter evidence forces
`free_floating` regardless of station feed presence. -/
theorem classify_scooter_override (feeds : GbfsExplorer.FeedMap)
    (evidence : Option GbfsExplorer.VehicleTypesData)
    (hne : feeds ≠ [])
    (hs : GbfsExplorer.scooterOverride evidence = true) :
    GbfsExplorer.classifyOperatorType feeds evidence =
      GbfsExplorer.OperatorType.free_floating := by
  have h : feeds.isEmpty = false := by
    cases feeds with
    | nil => exact absurd rfl hne
    | cons a l => rfl
  simp [GbfsExplorer.classifyOperatorType, h, hs]

/-- C2 witness: a feed map with both station feeds plus scooter evidence
classifies as `free_floating`. -/
theorem classify_scooter_override_witness :
    GbfsExplorer.classifyOperatorType
      [("station_information", "si"), ("station_status", "ss")]
      (some ⟨some [⟨some "scooter"⟩]⟩) =
      GbfsExplorer.OperatorType.free_floating :=
  classify_scooter_override _ _ (by decide) (by decide)

/-- C3: reclassification is monotonic toward `free_floating`: whenever
adding vehicle-type evidence changes the verdict at all, the new verdict
is `free_floating`; in particular re-invocation never flips a verdict to
`station_based`. -/
theorem classify_monotonic (feeds : GbfsExplorer.FeedMap)
    (V : GbfsExplorer.VehicleTypesData)
    (hdiff : GbfsExplorer.classifyOperatorType feeds none ≠
      GbfsExplorer.classifyOperatorType feeds (some V)) :
    GbfsExplorer.classifyOperatorType feeds (some V) =
      GbfsExplorer.OperatorType.free_floating := by
  by_cases he : feeds.isEmpty
  · exfalso
    apply hdiff
    simp [GbfsExplorer.classifyOperatorType, he]
  · by_cases hs : GbfsExplorer.scooterOverride (some V)
    · simp [GbfsExplorer.classifyOperatorType, he, hs]
    · exfalso
      apply hdiff
      have h0 : GbfsExplorer.scooterOverride none = false := rfl
      simp [GbfsExplorer.classifyOperatorType, he, hs, h0]

/-- C3 witness: a station-based operator re-classified with scooter
evidence flips, and the new verdict is `free_floating`. -/
theorem classify_monotonic_witness :
    GbfsExplorer.classifyOperatorType
      [("station_information", "si"), ("station_status", "ss")]
      (some ⟨some [⟨some "scooter"⟩]⟩) =
      GbfsExplorer.OperatorType.free_floating :=
  classify_monotonic _ _ (by decide)

/-- Shared helper: the spec's decidable availability test is the same
Boolean predicate as the code's `vehicleIsAvailable`. -/
theorem availPred_eq :
    (fun v : GbfsExplorer.Vehicle =>
        decide (v.is_disabled = some false) && decide (v.is_reserved = some false)) =
      GbfsExplorer.vehicleIsAvailable := by
  funext v
  obtain ⟨d, r⟩ := v
  rcases d with _ | (_ | _) <;> rcases r with _ | (_ | _) <;> rfl

/-- C5: the free-floating normalizer agrees with the spec's description
(vehicles array preferred, legacy bikes as fallback, total = length,
available = both flags explicitly false, `null` when neither array is
present); in particular the three-vehicle example yields total 3,
available 1, and a document with neither array yields `null`. -/
theorem countFreeFloating_correct :
    (∀ d, GbfsExplorer.countFreeFloatingVehicles d =
      GbfsExplorer.countFreeFloatingPerSpec d) ∧
    GbfsExplorer.countFreeFloatingVehicles
      (some ⟨some [⟨some false, some false⟩, ⟨some true, some false⟩,
        ⟨none, none⟩], none⟩) =
      some ⟨3, 1⟩ ∧
    GbfsExplorer.countFreeFloatingVehicles (some ⟨none, none⟩) = none := by
  refine ⟨?_, by decide, rfl⟩
  intro d
  cases d with
  | none => rfl
  | some dd =>
    obtain ⟨vs, bs⟩ := dd
    cases vs <;> cases bs <;>
      simp [GbfsExplorer.countFreeFloatingVehicles,
        GbfsExplorer.countFreeFloatingPerSpec, Option.orElse,
        List.countP_eq_length_filter, availPred_eq]

/-- C4 counterexample: on the literal two-station document of the claim
(no `station_id` on either station) `parseStationStatusFeed` returns
`stationCount = 1`, not 2 — both absent ids collapse to the single
`Set` element `undefined`. -/
theorem parseStation_example_counterexample :
    (GbfsExplorer.parseStationStatusFeed
        (some ⟨some [⟨none, none, some 3, none, none, none, none, some 5⟩,
          ⟨none, none, some 2, none, none, some 1, none, some 4⟩]⟩)).map
        (fun r => r.stationCount) = some 1 ∧
      some (1 : Nat) ≠ some 2 := by
  exact ⟨rfl, by decide⟩

/-- C4 (amended): the literal document yields `available = 5`,
`total = 6`, `docks = 9` but `stationCount = 1`; when its two stations
additionally carry distinct `station_id` values the result is
`available = 5`, `total = 6`, `docks = 9`, `stationCount = 2`. -/
theorem parseStation_example :
    GbfsExplorer.parseStationStatusFeed
        (some ⟨some [⟨none, none, some 3, none, none, none, none, some 5⟩,
          ⟨none, none, some 2, none, none, some 1, none, some 4⟩]⟩) =
      some ⟨5, 6, 9, 1, none⟩ ∧
    GbfsExplorer.parseStationStatusFeed
        (some ⟨some [⟨some "s1", none, some 3, none, none, none, none, some 5⟩,
          ⟨some "s2", none, some 2, none, none, some 1, none, some 4⟩]⟩) =
      some ⟨5, 6, 9, 2, none⟩ := by
  exact ⟨by decide, by decide⟩

/-- Shared helper: `fetchSingleFeed` labels its result with the feed's
name whatever the outcome. -/
theorem fetchSingleFeed_name (f : GbfsExplorer.Feed)
    (o : GbfsExplorer.FetchOutcome) :
    (GbfsExplorer.fetchSingleFeed f o).feed_name = f.name := by
  cases o <;> rfl

/-- C6: a batch of N items yields exactly N results whose names
correspond one-to-one with the inputs; each item's result depends only
on that item's own feed and network outcome, and an item whose request
times out is reported as an error for that item only. -/
theorem fetchMany_isolation (feeds : List GbfsExplorer.Feed)
    (net net2 : String → GbfsExplorer.FetchOutcome) :
    (GbfsExplorer.fetchManyResults feeds net).length = feeds.length ∧
    (GbfsExplorer.fetchManyResults feeds net).map (fun r => r.feed_name) =
      feeds.map (fun f => f.name) ∧
    (∀ (i : Nat) (f : GbfsExplorer.Feed), feeds[i]? = some f →
      (net2 f.url = net f.url →
        (GbfsExplorer.fetchManyResults feeds net2)[i]? =
          (GbfsExplorer.fetchManyResults feeds net)[i]?) ∧
      (∀ m, net f.url = GbfsExplorer.FetchOutcome.timeout m →
        (GbfsExplorer.fetchManyResults feeds net)[i]? =
          some ⟨f.name, none, some (GbfsExplorer.errMessageOr m)⟩)) := by
  refine ⟨by simp [GbfsExplorer.fetchManyResults], ?_, ?_⟩
  · simp [GbfsExplorer.fetchManyResults, List.map_map, Function.comp_def,
      fetchSingleFeed_name]
  · intro i f hf
    constructor
    · intro h2
      simp [GbfsExplorer.fetchManyResults, List.getElem?_map, hf, h2]
    · intro m hm
      simp [GbfsExplorer.fetchManyResults, List.getElem?_map, hf, hm,
        GbfsExplorer.fetchSingleFeed]

/-- C6 witness: in a two-item batch whose second URL times out, the
second result is that item's timeout error while the batch still
answers both items. -/
theorem fetchMany_isolation_witness :
    (GbfsExplorer.fetchManyResults [⟨"a", "u1"⟩, ⟨"b", "u2"⟩]
        GbfsExplorer.demoNet)[1]? =
      some ⟨"b", none, some (GbfsExplorer.errMessageOr "The operation was aborted")⟩ :=
  ((fetchMany_isolation [⟨"a", "u1"⟩, ⟨"b", "u2"⟩] GbfsExplorer.demoNet
      GbfsExplorer.demoNet).2.2 1 ⟨"b", "u2"⟩ rfl).2
    "The operation was aborted" rfl

/-- C7 counterexample: the JSON document `null` is a well-formed input
document on which `discoverFeeds` throws (the property access
`rawGbfsJson.data` raises a `TypeError`), so the parser does not return
an empty map there. -/
theorem discoverFeeds_null_counterexample :
    GbfsExplorer.discoverFeeds GbfsExplorer.JsValue.null "X" =
      Except.error () := rfl

/-- C7 (amended): on every input document other than the JSON document
`null` the discovery parser never throws; the empty document `{}`
yields an empty feed map and the caller-supplied fallback name; and a
feed entry is accepted exactly when it is truthy and carries both a
string `name` and a string `url`. -/
theorem discoverFeeds_resilient :
    (∀ (doc : GbfsExplorer.JsValue) (fb : String),
      doc ≠ GbfsExplorer.JsValue.null →
      ∃ r, GbfsExplorer.discoverFeeds doc fb = Except.ok r) ∧
    (∀ fb : String,
      GbfsExplorer.discoverFeeds (GbfsExplorer.JsValue.obj []) fb =
        Except.ok ([], GbfsExplorer.JsValue.str fb)) ∧
    (∀ (f : GbfsExplorer.JsValue) (n u : String),
      GbfsExplorer.acceptFeedEntry f = some (n, u) ↔
        GbfsExplorer.truthy f = true ∧
        GbfsExplorer.getProp f "name" = some (GbfsExplorer.JsValue.str n) ∧
        GbfsExplorer.getProp f "url" = some (GbfsExplorer.JsValue.str u)) := by
  refine ⟨?_, ?_, ?_⟩
  · intro doc fb h
    cases doc with
    | null => exact absurd rfl h
    | bool b => exact ⟨_, rfl⟩
    | num n => exact ⟨_, rfl⟩
    | str s => exact ⟨_, rfl⟩
    | arr xs => exact ⟨_, rfl⟩
    | obj fs => exact ⟨_, rfl⟩
  · intro fb
    rfl
  · intro f n u
    unfold GbfsExplorer.acceptFeedEntry
    by_cases ht : GbfsExplorer.truthy f = true
    · simp only [ht, if_true, true_and]
      rcases hn : GbfsExplorer.getProp f "name" with _ | v1
      · simp
      · rcases hu : GbfsExplorer.getProp f "url" with _ | v2
        · cases v1 <;> simp
        · cases v1 <;> cases v2 <;> simp
    · simp [ht]

/-- C7 witness: a malformed (string) document is handled without a
throw. -/
theorem discoverFeeds_resilient_witness :
    ∃ r, GbfsExplorer.discoverFeeds (GbfsExplorer.JsValue.str "garbage") "FB" =
      Except.ok r :=
  discoverFeeds_resilient.1 (GbfsExplorer.JsValue.str "garbage") "FB"
    (fun h => GbfsExplorer.JsValue.noConfusion h)

/-- C8: with the fixed limit of 1000 and upstream pages of sizes
[1000, 1000, 400], the catalog fetcher returns the 2400 records of the
three pages concatenated in order, and requests exactly pages 0, 1, 2 —
no request is issued after the short page even though the upstream would
keep answering (for every sufficient fuel bound). -/
theorem catalog_pagination (fuel : Nat) :
    GbfsExplorer.PAGE_LIMIT = 1000 ∧
    GbfsExplorer.fetchAllGbfsFeedsRun GbfsExplorer.demoPages (fuel + 3) =
      (GbfsExplorer.demoPages 0 ++ GbfsExplorer.demoPages 1 ++
        GbfsExplorer.demoPages 2, [0, 1, 2]) ∧
    (GbfsExplorer.demoPages 0 ++ GbfsExplorer.demoPages 1 ++
      GbfsExplorer.demoPages 2).length = 2400 ∧
    GbfsExplorer.demoPages 3 ≠ [] := by
  refine ⟨rfl, ?_, by norm_num [GbfsExplorer.demoPages],
    by norm_num [GbfsExplorer.demoPages]⟩
  show GbfsExplorer.fetchPagesAux GbfsExplorer.demoPages
      GbfsExplorer.PAGE_LIMIT (fuel + 3) 0 = _
  norm_num [GbfsExplorer.fetchPagesAux, GbfsExplorer.demoPages,
    GbfsExplorer.PAGE_LIMIT]

/-- C9: `getAccessToken` performs a refresh exchange exactly when there
is no stored (non-empty) token, no stored expiry, or the current time is
at or past the stored expiry minus the 5-minute buffer; in particular a
token expiring 4 minutes from now is refreshed before a token is
returned, and the call returns the freshly exchanged token. -/
theorem token_refresh_iff :
    (∀ (tm : GbfsExplorer.TokenManager) (now : Int)
        (resp : GbfsExplorer.RefreshResponse),
      (GbfsExplorer.getAccessToken tm now resp).didRefresh = true ↔
        (tm.accessToken = none ∨ tm.accessToken = some "" ∨
          tm.tokenExpiresAt = none ∨
          ∃ e, tm.tokenExpiresAt = some e ∧
            e - GbfsExplorer.bufferTime ≤ now)) ∧
    (∀ (now : Int) (resp : GbfsExplorer.RefreshResponse),
      GbfsExplorer.getAccessToken ⟨some "tok", some (now + 4 * 60 * 1000)⟩
          now resp =
        GbfsExplorer.refreshAccessToken now resp) := by
  constructor
  · intro tm now resp
    obtain ⟨atok, aexp⟩ := tm
    rcases atok with _ | tok
    · simp [GbfsExplorer.getAccessToken, GbfsExplorer.isTokenExpired,
        GbfsExplorer.refreshAccessToken]
    · rcases aexp with _ | e
      · simp [GbfsExplorer.getAccessToken, GbfsExplorer.isTokenExpired,
          GbfsExplorer.refreshAccessToken]
      · by_cases htok : tok = ""
        · simp [GbfsExplorer.getAccessToken, GbfsExplorer.isTokenExpired,
            GbfsExplorer.refreshAccessToken, htok]
        · by_cases hle : e - GbfsExplorer.bufferTime ≤ now
          · simp only [GbfsExplorer.bufferTime] at hle
            have hle2 : e ≤ now + 300000 := by omega
            simp [GbfsExplorer.getAccessToken, GbfsExplorer.isTokenExpired,
              GbfsExplorer.refreshAccessToken, htok, GbfsExplorer.bufferTime,
              hle2]
          · simp only [GbfsExplorer.bufferTime] at hle
            have hle2 : ¬ e ≤ now + 300000 := by omega
            simp [GbfsExplorer.getAccessToken, GbfsExplorer.isTokenExpired,
              GbfsExplorer.refreshAccessToken, htok, GbfsExplorer.bufferTime,
              hle2]
  · intro now resp
    have hexp : GbfsExplorer.isTokenExpired
        ⟨some "tok", some (now + 4 * 60 * 1000)⟩ now = true := by
      simp [GbfsExplorer.isTokenExpired, GbfsExplorer.bufferTime]
    unfold GbfsExplorer.getAccessToken
    simp only [hexp, if_true]

/-- C10: the handler's cache key is the sorted URL list only.  Starting
from an empty cache, a first request is fetched and stored; a second
request within the 60 s TTL whose URLs sort equal receives the stored
per-item results verbatim — which carry the FIRST request's names —
whatever names (and even network behavior) the second request brings. -/
theorem handler_cache_key_ignores_names
    (feeds1 feeds2 : List GbfsExplorer.Feed)
    (net1 net2 : String → GbfsExplorer.FetchOutcome) (t1 t2 : Int)
    (hkey : GbfsExplorer.cacheKey feeds2 = GbfsExplorer.cacheKey feeds1)
    (httl : t2 - t1 < GbfsExplorer.CACHE_TTL) :
    (GbfsExplorer.handlerStep
        (GbfsExplorer.handlerStep ⟨[]⟩ feeds1 t1 net1).2 feeds2 t2 net2).1 =
      (GbfsExplorer.handlerStep ⟨[]⟩ feeds1 t1 net1).1 ∧
    ((GbfsExplorer.handlerStep ⟨[]⟩ feeds1 t1 net1).1).map
        (fun r => r.feed_name) = feeds1.map (fun f => f.name) := by
  have h1 : GbfsExplorer.handlerStep ⟨[]⟩ feeds1 t1 net1 =
      (GbfsExplorer.fetchManyResults feeds1 net1,
       ⟨[(GbfsExplorer.cacheKey feeds1,
          (GbfsExplorer.fetchManyResults feeds1 net1, t1))]⟩) := by
    simp [GbfsExplorer.handlerStep, GbfsExplorer.lookupEntries,
      GbfsExplorer.cacheInsert]
  rw [h1]
  constructor
  · simp [GbfsExplorer.handlerStep, GbfsExplorer.lookupEntries, hkey, httl]
  · simp [GbfsExplorer.fetchManyResults, List.map_map, Function.comp_def,
      fetchSingleFeed_name]

/-- C10 witness: a one-item request under name `nameA`, then a request
for the same URL under name `nameB` one second later, receives the
cached result still labelled `nameA`. -/
theorem handler_cache_key_ignores_names_witness :
    (GbfsExplorer.handlerStep
        (GbfsExplorer.handlerStep ⟨[]⟩ [⟨"nameA", "u"⟩] 0 GbfsExplorer.demoNet).2
        [⟨"nameB", "u"⟩] 1000 GbfsExplorer.demoNet).1 =
      (GbfsExplorer.handlerStep ⟨[]⟩ [⟨"nameA", "u"⟩] 0 GbfsExplorer.demoNet).1 ∧
    ((GbfsExplorer.handlerStep ⟨[]⟩ [⟨"nameA", "u"⟩] 0 GbfsExplorer.demoNet).1).map
        (fun r => r.feed_name) = ["nameA"] :=
  handler_cache_key_ignores_names [⟨"nameA", "u"⟩] [⟨"nameB", "u"⟩]
    GbfsExplorer.demoNet GbfsExplorer.demoNet 0 1000 rfl (by decide)
